import Mathlib

/-!
# Verification of the "ice" imputation plugin

Shallow embedding of `src/hyperimpute/plugins/imputers/plugin_ice.py`, the
`IterativeChainedEquationsPlugin` class: its constructor, `name`,
`hyperparameter_space`, `_fit` and `_transform`, together with theorems
checking the natural-language specification against this embedding.

The iterative imputation engine (`plugin_hyperimpute`, imported by the file
as `base_model`) lives outside the given sources; following the spec, we
model only what the plugin file touches of it: its constructor keyword
arguments and its two class attributes `initial_strategy_vals` and
`imputation_order_vals`.
-/

namespace Ice

/-- A pandas DataFrame, opaque to the plugin: `plugin_ice.py` never inspects
`X`, it only hands it to the base model, so the payload is an abstract token. -/
structure DataFrame where
  raw : Nat
deriving DecidableEq, Repr

/-- Extra positional and keyword arguments (`*args, **kwargs`), opaque to the
plugin: they are forwarded unexamined. -/
structure ExtraArgs where
  raw : Nat
deriving DecidableEq, Repr

/-- A hyperparameter descriptor, from `hyperimpute.plugins.core.params`.
`Integer(name, low, high, step=1)` describes an integer range; the module also
offers non-integer descriptors, represented here by `Categorical`. -/
inductive Params where
  | Integer (pname : String) (low : Int) (high : Int) (step : Int)
  | Categorical (pname : String) (choices : List String)
deriving DecidableEq, Repr

/-- `Params.Integer` with the Python default `step=1`. -/
def Params.Integer1 (pname : String) (low : Int) (high : Int) : Params :=
  Params.Integer pname low high 1

/-- Modelled from the spec: the externally-implemented iterative imputation
engine (`plugin_hyperimpute`, out of scope for this excerpt) is visible to
`plugin_ice.py` only through its constructor's keyword arguments.  This record
holds exactly the keyword arguments the plugin passes. -/
structure BaseModelConfig where
  classifier_seed : List String
  regression_seed : List String
  imputation_order : Int
  baseline_imputer : Int
  random_state : Int
  n_inner_iter : Int
  n_outer_iter : Int
  class_threshold : Int
deriving DecidableEq, Repr

/-- Modelled from the spec: the base model CLASS attributes that
`hyperparameter_space` reads (`base_model.initial_strategy_vals` and
`base_model.imputation_order_vals`).  The engine is out of scope, so the two
value lists are abstract. -/
structure BaseModelClass where
  initial_strategy_vals : List String
  imputation_order_vals : List String
deriving DecidableEq, Repr

/-- What the plugin stores in `self._model`: either an externally supplied
object installed verbatim (`if model: self._model = model`), or a freshly
constructed base model holding the configuration built by the constructor. -/
inductive Model (α : Type) where
  | external (m : α)
  | baseEngine (cfg : BaseModelConfig)
deriving DecidableEq, Repr

/-- The plugin's instance state: after `__init__` the only instance attribute
`plugin_ice.py` ever sets or reads is `self._model`. -/
structure Plugin (α : Type) where
  _model : Model α
deriving DecidableEq, Repr

/-- Python truthiness of the `model: Any = None` argument: `None` is falsy,
any other object `m` is as truthy as its type says (`truthy m`). -/
def pyTruthy {α : Type} (truthy : α → Bool) : Option α → Bool
  | none => false
  | some m => truthy m

/-- The constructor body that runs when the `if model:` branch is not taken:
`if not random_state: random_state = int(time.time())`, then
`self._model = base_model(classifier_seed=["logistic_regression"], ...)`.
`now` stands for `int(time.time())`, made an explicit input. -/
def initNoModel {α : Type} (now : Int) (max_iter : Int) (initial_strategy : Int)
    (imputation_order : Int) (random_state : Option Int) : Plugin α :=
  let rs : Int :=
    match random_state with
    | none => now
    | some r => if r = 0 then now else r
  { _model := Model.baseEngine
      { classifier_seed := ["logistic_regression"]
        regression_seed := ["linear_regression"]
        imputation_order := imputation_order
        baseline_imputer := initial_strategy
        random_state := rs
        n_inner_iter := max_iter
        n_outer_iter := 1
        class_threshold := 5 } }

/-- `IterativeChainedEquationsPlugin.__init__`: if `model` is truthy it is
installed verbatim and the constructor returns; otherwise the base model is
constructed via `initNoModel`.  `truthy` gives Python truthiness for the
`Any`-typed `model` argument and `now` is `int(time.time())`. -/
def pluginInit {α : Type} (truthy : α → Bool) (now : Int) (max_iter : Int)
    (initial_strategy : Int) (imputation_order : Int)
    (random_state : Option Int) (model : Option α) : Plugin α :=
  match model with
  | some m =>
      if truthy m then { _model := Model.external m }
      else initNoModel now max_iter initial_strategy imputation_order random_state
  | none => initNoModel now max_iter initial_strategy imputation_order random_state

/-- `IterativeChainedEquationsPlugin.name`: a static method returning "ice". -/
def pluginName : String := "ice"

/-- `IterativeChainedEquationsPlugin.hyperparameter_space(*args, **kwargs)`:
a static method ignoring its arguments and returning the three `Integer`
descriptors, the middle two with the default step.  `bm` is the base model
class whose `initial_strategy_vals` and `imputation_order_vals` lengths bound
the last two ranges; `a` stands for the ignored `(*args, **kwargs)`. -/
def hyperparameter_space {σ : Type} (bm : BaseModelClass) (a : σ) : List Params :=
  [ Params.Integer "max_iter" 100 1000 100,
    Params.Integer1 "initial_strategy" 0 ((bm.initial_strategy_vals.length : Int) - 1),
    Params.Integer1 "imputation_order" 0 ((bm.imputation_order_vals.length : Int) - 1) ]

/-- `IterativeChainedEquationsPlugin._fit(self, X, *args, **kwargs)`: calls
`self._model.fit(X, *args, **kwargs)` (an in-place mutation of the model,
modelled by the state-updating function `modelFit`) and returns `self`. -/
def pluginFit {α : Type} (modelFit : Model α → DataFrame → ExtraArgs → Model α)
    (self : Plugin α) (X : DataFrame) (a : ExtraArgs) : Plugin α :=
  { self with _model := modelFit self._model X a }

/-- `IterativeChainedEquationsPlugin._transform(self, X)`: returns
`self._model.transform(X)`, where `modelTransform` is the base model's
`transform`. -/
def pluginTransform {α : Type} (modelTransform : Model α → DataFrame → DataFrame)
    (self : Plugin α) (X : DataFrame) : DataFrame :=
  modelTransform self._model X

/-- The common plugin interface of the framework: a name and a hyperparameter
space available without an instance (static methods), and the two
instance-level operations fit and transform. -/
structure PluginInterface (α σ : Type) where
  iname : String
  ihspace : σ → List Params
  ifit : Plugin α → DataFrame → ExtraArgs → Plugin α
  itransform : Plugin α → DataFrame → DataFrame

/-- The ice plugin's operations bundled as a `PluginInterface`, given a base
model class `bm` and the base model's fit and transform behaviours. -/
def iceInterface (α σ : Type) (bm : BaseModelClass)
    (mf : Model α → DataFrame → ExtraArgs → Model α)
    (mt : Model α → DataFrame → DataFrame) : PluginInterface α σ where
  iname := pluginName
  ihspace := hyperparameter_space bm
  ifit := pluginFit mf
  itransform := pluginTransform mt

/-- The random seed the plugin forwards to the base model, when the plugin
holds a constructed base model (`none` when an external model was installed). -/
def Plugin.forwardedSeed {α : Type} : Plugin α → Option Int
  | ⟨Model.baseEngine cfg⟩ => some cfg.random_state
  | ⟨Model.external _⟩ => none

/-- C1: `_transform(X)` returns exactly the base model's `transform(X)`,
performing no computation of its own on `X`: for every model transform
behaviour, plugin state and DataFrame, `pluginTransform` is pure delegation. -/
theorem ice_transform_delegates {α : Type}
    (mt : Model α → DataFrame → DataFrame) (self : Plugin α) (X : DataFrame) :
    pluginTransform mt self X = mt self._model X := rfl

/-- C4: the static method `name()` always returns the string "ice". -/
theorem ice_name_is_ice : pluginName = "ice" := rfl

/-- C5: `_fit(X, *args, **kwargs)` delegates by calling the base model's fit
with exactly those arguments, and the value it returns is the plugin instance
itself: `self`, whose sole attribute `_model` now holds the fitted model and
which is otherwise unchanged. -/
theorem ice_fit_delegates {α : Type}
    (mf : Model α → DataFrame → ExtraArgs → Model α)
    (self : Plugin α) (X : DataFrame) (a : ExtraArgs) :
    pluginFit mf self X a = { self with _model := mf self._model X a } := rfl

/-- C9: `hyperparameter_space` is deterministic and ignores its arguments:
for any two argument lists, of any types, the two calls return equal lists. -/
theorem ice_hspace_ignores_args {σ τ : Type} (bm : BaseModelClass)
    (a : σ) (b : τ) :
    hyperparameter_space bm a = hyperparameter_space bm b := rfl

/-- C3: `hyperparameter_space(*args, **kwargs)` returns exactly three
`Integer` hyperparameters and no others: `max_iter` over 100..1000 step 100,
`initial_strategy` over 0..len(initial_strategy_vals)-1, and
`imputation_order` over 0..len(imputation_order_vals)-1 (the latter two with
the default step 1). -/
theorem ice_hspace_exact {σ : Type} (bm : BaseModelClass) (a : σ) :
    hyperparameter_space bm a =
      [ Params.Integer "max_iter" 100 1000 100,
        Params.Integer "initial_strategy" 0
          ((bm.initial_strategy_vals.length : Int) - 1) 1,
        Params.Integer "imputation_order" 0
          ((bm.imputation_order_vals.length : Int) - 1) 1 ] := rfl

/-- C6: the plugin satisfies the common plugin interface: its bundle
`iceInterface` provides all four operations, `iname` and `ihspace` taking no
plugin instance (static), and each field is the corresponding operation. -/
theorem ice_satisfies_interface (α σ : Type) (bm : BaseModelClass)
    (mf : Model α → DataFrame → ExtraArgs → Model α)
    (mt : Model α → DataFrame → DataFrame) :
    (iceInterface α σ bm mf mt).iname = pluginName ∧
    (iceInterface α σ bm mf mt).ihspace = hyperparameter_space bm ∧
    (iceInterface α σ bm mf mt).ifit = pluginFit mf ∧
    (iceInterface α σ bm mf mt).itransform = pluginTransform mt :=
  ⟨rfl, rfl, rfl, rfl⟩

/-- C7: a truthy `model` argument is installed verbatim as the plugin's model,
and the remaining constructor parameters have no effect: any two constructions
with the same truthy model yield plugins with the identical model. -/
theorem ice_init_truthy_model {α : Type} (truthy : α → Bool) (m : α)
    (h : truthy m = true)
    (now₁ now₂ mi₁ mi₂ is₁ is₂ io₁ io₂ : Int) (rs₁ rs₂ : Option Int) :
    pluginInit truthy now₁ mi₁ is₁ io₁ rs₁ (some m) =
      { _model := Model.external m } ∧
    pluginInit truthy now₁ mi₁ is₁ io₁ rs₁ (some m) =
      pluginInit truthy now₂ mi₂ is₂ io₂ rs₂ (some m) := by
  refine ⟨?_, ?_⟩ <;> simp [pluginInit, h]

/-- Witness for C7: at a concrete truthy model and two different parameter
lists, both constructions install the model verbatim. -/
theorem ice_init_truthy_model_witness :
    pluginInit (fun (_ : Unit) => true) 11 1000 0 0 (some 3) (some ()) =
      { _model := Model.external () } ∧
    pluginInit (fun (_ : Unit) => true) 11 1000 0 0 (some 3) (some ()) =
      pluginInit (fun (_ : Unit) => true) 22 500 1 2 none (some ()) :=
  ice_init_truthy_model (fun (_ : Unit) => true) () rfl 11 22 1000 500 0 1 0 2
    (some 3) none

/-- C2 counterexample: with no model supplied and the caller's
`random_state = 0` (the declared default), the constructor does NOT forward
the caller's `random_state`: the constructed configuration carries
`int(time.time())` (here 1700000000), not 0, so the plugin differs from the
one the claim describes. -/
theorem ice_init_seed_counterexample :
    pluginInit (fun (_ : Unit) => true) 1700000000 1000 0 0 (some 0) none ≠
      ({ _model := Model.baseEngine
          { classifier_seed := ["logistic_regression"]
            regression_seed := ["linear_regression"]
            imputation_order := 0
            baseline_imputer := 0
            random_state := 0
            n_inner_iter := 1000
            n_outer_iter := 1
            class_threshold := 5 } } : Plugin Unit) := by decide

/-- C2 amended: when `model` is falsy and the caller's `random_state` is a
nonzero integer, the constructor builds the base model with exactly the fixed
configuration (classifier_seed=["logistic_regression"],
regression_seed=["linear_regression"], n_outer_iter=1, class_threshold=5) and
forwards the caller's imputation_order, initial_strategy (as
baseline_imputer), random_state, and max_iter (as n_inner_iter). -/
theorem ice_init_no_model_config {α : Type} (truthy : α → Bool)
    (now max_iter initial_strategy imputation_order r : Int)
    (model : Option α) (hm : pyTruthy truthy model = false) (hr : r ≠ 0) :
    pluginInit truthy now max_iter initial_strategy imputation_order
        (some r) model =
      { _model := Model.baseEngine
          { classifier_seed := ["logistic_regression"]
            regression_seed := ["linear_regression"]
            imputation_order := imputation_order
            baseline_imputer := initial_strategy
            random_state := r
            n_inner_iter := max_iter
            n_outer_iter := 1
            class_threshold := 5 } } := by
  cases model with
  | none => simp [pluginInit, initNoModel, hr]
  | some m =>
      simp only [pyTruthy] at hm
      simp [pluginInit, hm, initNoModel, hr]

/-- Witness for C2 amended: concrete falsy model (`None`) and nonzero seed. -/
theorem ice_init_no_model_config_witness :
    pluginInit (fun (_ : Unit) => true) 1700000000 1000 0 0 (some 42) none =
      { _model := Model.baseEngine
          { classifier_seed := ["logistic_regression"]
            regression_seed := ["linear_regression"]
            imputation_order := 0
            baseline_imputer := 0
            random_state := 42
            n_inner_iter := 1000
            n_outer_iter := 1
            class_threshold := 5 } } :=
  ice_init_no_model_config (fun (_ : Unit) => true) 1700000000 1000 0 0 42
    none rfl (by decide)

/-- C8: when `random_state` is falsy (None or 0) and no model is supplied, the
constructor forwards `int(time.time())` (here `now`) as the seed; since the
wall clock is positive, the seed 0 is never forwarded; and the construction
depends on the wall clock: different times give different plugins. -/
theorem ice_init_falsy_seed {α : Type} (truthy : α → Bool)
    (now max_iter initial_strategy imputation_order : Int) (rs : Option Int)
    (hrs : rs = none ∨ rs = some 0) (hnow : 0 < now) :
    Plugin.forwardedSeed (pluginInit truthy now max_iter initial_strategy
        imputation_order rs (none : Option α)) = some now ∧
    Plugin.forwardedSeed (pluginInit truthy now max_iter initial_strategy
        imputation_order rs (none : Option α)) ≠ some 0 ∧
    ∀ now' : Int, now ≠ now' →
      pluginInit truthy now max_iter initial_strategy imputation_order rs
          (none : Option α) ≠
        pluginInit truthy now' max_iter initial_strategy imputation_order rs
          (none : Option α) := by
  have hseed : Plugin.forwardedSeed (pluginInit truthy now max_iter
      initial_strategy imputation_order rs (none : Option α)) = some now := by
    rcases hrs with h | h <;>
      simp [h, pluginInit, initNoModel, Plugin.forwardedSeed]
  refine ⟨hseed, ?_, ?_⟩
  · rw [hseed]
    simp only [ne_eq, Option.some.injEq]
    omega
  · intro now' hne hcontra
    rcases hrs with h | h <;>
      simp [h, pluginInit, initNoModel] at hcontra <;> exact hne hcontra

/-- Witness for C8: concrete falsy seed (the default 0), no model, positive
wall clock 1700000000. -/
theorem ice_init_falsy_seed_witness :
    Plugin.forwardedSeed (pluginInit (fun (_ : Unit) => true) 1700000000 1000
        0 0 (some 0) (none : Option Unit)) = some 1700000000 ∧
    Plugin.forwardedSeed (pluginInit (fun (_ : Unit) => true) 1700000000 1000
        0 0 (some 0) (none : Option Unit)) ≠ some 0 ∧
    ∀ now' : Int, (1700000000 : Int) ≠ now' →
      pluginInit (fun (_ : Unit) => true) 1700000000 1000 0 0 (some 0)
          (none : Option Unit) ≠
        pluginInit (fun (_ : Unit) => true) now' 1000 0 0 (some 0)
          (none : Option Unit) :=
  ice_init_falsy_seed (fun (_ : Unit) => true) 1700000000 1000 0 0 (some 0)
    (Or.inr rfl) (by decide)

end Ice
